import Mathlib

/-!
Shallow embedding of the `ems_pcr_utils` ingestion pipeline
(`yahoo_mail_poller.py`, `pcr_parser.py`, `supabase_gateway.py`) and proofs
of the specification claims about it.

The embedding models:
* the day/night scheduler (`YahooMailPoller._get_poll_interval`),
* the durable dedup store (`_load_processed_ids` / `_add_processed_id`),
* the per-message processing and the polling cycle
  (`_process_email` / `_process_new_emails`),
* the work-queue ordering (`PCRPollingService._get_pdf_files`),
* the quarantine move (`_move_to_error_dir`) and the per-item state machine
  (`_process_pdf`),
* the transformer/validator (`SupabaseGateway._prepare_record`,
  `_parse_datetime`, `upsert_pcr_data`).

External effects (IMAP fetches, the OpenAI call, the Supabase client, the
filesystem) are passed in as explicit data, so every definition is an
executable function of its inputs, translated line by line from the Python
source.
-/

namespace PcrUtils

/-! ## Scheduler (`YahooMailPoller._get_poll_interval`, lines 142-165) -/

/-- The night test from `_get_poll_interval`: wraparound when
`night_start_hour > night_end_hour`. -/
def isNightHour (nightStart nightEnd hour : Nat) : Bool :=
  if nightStart > nightEnd then
    hour ≥ nightStart || hour < nightEnd
  else
    nightStart ≤ hour && hour < nightEnd

/-- `_get_poll_interval`, with the current hour injected: returns the night
interval during night hours, the day interval otherwise. -/
def getPollInterval (nightStart nightEnd dayInterval nightInterval hour : Nat) : Nat :=
  if isNightHour nightStart nightEnd hour then nightInterval else dayInterval

/-- The spec's own wording of the night predicate (section 4.1), written
independently of the source to compare against `isNightHour`. -/
def specNight (nightStart nightEnd hour : Nat) : Prop :=
  if nightStart > nightEnd then
    hour ≥ nightStart ∨ hour < nightEnd
  else
    nightStart ≤ hour ∧ hour < nightEnd

instance (a b c : Nat) : Decidable (specNight a b c) :=
  decidable_of_iff ((b < a ∧ (c ≥ a ∨ c < b)) ∨ (¬ b < a ∧ (a ≤ c ∧ c < b)))
    (by unfold specNight; split <;> simp_all)

/-! ## String helpers shared by the embedding -/

/-- `p.isPrefixOf`-based scan: does `p` occur as a contiguous run inside the
second list?  Models Python's `in` operator on strings. -/
def infixOfAux (p : List Char) : List Char → Bool
  | [] => p.isEmpty
  | c :: cs => p.isPrefixOf (c :: cs) || infixOfAux p cs

/-- Python `pat in s` for strings. -/
def strContains (s pat : String) : Bool :=
  infixOfAux pat.toList s.toList

/-- Python `str.strip()`: drop whitespace from both ends. -/
def pyStrip (s : String) : String :=
  String.mk
    (((s.toList.dropWhile Char.isWhitespace).reverse.dropWhile Char.isWhitespace).reverse)

/-- Python `str.lower()` (ASCII case folding suffices for the constants the
code compares against). -/
def pyLower (s : String) : String :=
  String.mk (s.toList.map Char.toLower)

/-- Python `str.endswith(post)`. -/
def strEndsWith (s post : String) : Bool :=
  post.toList.isSuffixOf s.toList

/-! ## Durable dedup store (`_load_processed_ids` / `_add_processed_id`,
lines 167-205) -/

/-- State visible to one poller run: the in-memory processed set (kept as a
first-occurrence list), the durable state file (list of appended lines) and
the names present in the save directory. -/
structure PollerState where
  processed : List String
  stateFile : List String
  saveDir : List String
deriving Repr, DecidableEq

/-- `_load_processed_ids`: `none` models a missing state file, `readFails`
models an exception while reading; both return the empty set.  Otherwise the
lines are stripped, empties dropped, and collected into a set. -/
def loadProcessedIds (file : Option (List String)) (readFails : Bool) : List String :=
  match file with
  | none => []
  | some lines =>
    if readFails then []
    else ((lines.map pyStrip).filter (fun l => l ≠ "")).dedup

/-- `_add_processed_id`: the in-memory `set.add` happens first; the append to
the state file is attempted afterwards and an exception there (modelled by
`appendFails`) is caught and logged, leaving the in-memory set updated. -/
def addProcessedId (appendFails : Bool) (st : PollerState) (mid : String) : PollerState :=
  let mem := if st.processed.contains mid then st.processed else st.processed ++ [mid]
  { st with
    processed := mem
    stateFile := if appendFails then st.stateFile else st.stateFile ++ [mid] }

/-! ## Per-message processing (`_process_email`, lines 324-456) -/

/-- One MIME part of a fetched message, as `message.walk()` yields it
(multipart containers included).  `payloadNonempty` models the truthiness of
`part.get_payload(decode=True)`. -/
structure MimePart where
  maintype : String
  contentType : String
  contentDisp : Option String
  filename : Option String
  payloadNonempty : Bool
deriving Repr, DecidableEq

/-- Outcome of `imap.fetch` plus parsing for one message.  `raises` models an
exception thrown anywhere in the per-message `try` block (caught at line
454); `badStatus` models a non-OK fetch status. -/
inductive FetchResult where
  | ok (messageId : String) (subject : String) (parts : List MimePart)
  | badStatus
  | raises
deriving Repr, DecidableEq

/-- One message of the search result. -/
structure EmailMsg where
  uid : String
  fetch : FetchResult
deriving Repr, DecidableEq

/-- Injected environment of one polling cycle: the two timestamp strings the
code formats with `datetime.now()`, and whether appending to the state file
fails this run. -/
structure PollEnv where
  tsMicro : String
  tsSec : String
  appendFails : Bool
deriving Repr, DecidableEq

/-- `TARGET_SUBJECT` (line 39). -/
def TARGET_SUBJECT : String := "1 page fax received from VSI-FAX"

/-- `_check_subject_match` (line 312-322): case-insensitive containment. -/
def checkSubjectMatch (subject : String) : Bool :=
  strContains (pyLower subject) (pyLower TARGET_SUBJECT)

/-- The collision rename (lines 430-435): `rsplit('.', 1)` then
`f"{parts[0]}_{ts}.{parts[1]}"`.  Every filename reaching this point ends in
`.pdf`, so the dot is always found; the dotless branch is unreachable. -/
def collideName (fname ts : String) : String :=
  let rev := fname.toList.reverse
  let after := rev.takeWhile (· ≠ '.')
  match rev.dropWhile (· ≠ '.') with
  | [] => fname
  | _ :: before =>
    String.mk before.reverse ++ "_" ++ ts ++ "." ++ String.mk after.reverse

/-- Writing a file: an existing name is overwritten in place, a new name is
appended to the directory listing. -/
def addFile (d : List String) (f : String) : List String :=
  if d.contains f then d else d ++ [f]

/-- The body of the `for part in message.walk()` loop (lines 372-442),
threading the save-directory listing. -/
def processPart (env : PollEnv) (uid : String) (saveDir : List String)
    (part : MimePart) : List String :=
  if part.maintype == "multipart" then saveDir
  else
    let ct := part.contentType
    let isAttachment :=
      match part.contentDisp with
      | some d => strContains (pyLower d) "attachment" || strContains (pyLower d) "inline"
      | none => false
    let isPdfType := ct == "application/pdf"
    let isOctetStream := ct == "application/octet-stream"
    if ct == "text/plain" || ct == "text/html" ||
        ct == "multipart/alternative" || ct == "multipart/mixed" then saveDir
    else if !(isAttachment || isPdfType || isOctetStream) then saveDir
    else
      match part.filename with
      | none =>
        if isPdfType || isOctetStream then
          -- generated name always ends in ".pdf" and is saved unconditionally
          -- (payload check still applies)
          let fname := "fax_" ++ uid ++ "_" ++ env.tsMicro ++ ".pdf"
          if !part.payloadNonempty then saveDir
          else if saveDir.contains fname then addFile saveDir (collideName fname env.tsSec)
          else addFile saveDir fname
        else saveDir
      | some fname₀ =>
        if !isOctetStream && !(strEndsWith (pyLower fname₀) ".pdf") then saveDir
        else
          let fname :=
            if isOctetStream && !(strEndsWith (pyLower fname₀) ".pdf") then fname₀ ++ ".pdf"
            else fname₀
          if !part.payloadNonempty then saveDir
          else if saveDir.contains fname then addFile saveDir (collideName fname env.tsSec)
          else addFile saveDir fname

/-- `_process_email`: returns the Message-ID when a new message was handled,
`None` otherwise (fetch failure, missing Message-ID, already processed,
subject mismatch, or a caught exception), together with the updated state. -/
def processEmail (env : PollEnv) (st : PollerState) (m : EmailMsg) :
    Option String × PollerState :=
  match m.fetch with
  | .raises => (none, st)
  | .badStatus => (none, st)
  | .ok mid₀ subject parts =>
    let mid := pyStrip mid₀
    if mid = "" then (none, st)
    else if st.processed.contains mid then (none, st)
    else if !checkSubjectMatch subject then
      (none, addProcessedId env.appendFails st mid)
    else
      let d := parts.foldl (processPart env m.uid) st.saveDir
      let st₁ := { st with saveDir := d }
      (some mid, addProcessedId env.appendFails st₁ mid)

/-- Statistics returned by `_process_new_emails`. -/
structure PollStats where
  emailsChecked : Nat
  emailsProcessed : Nat
deriving Repr, DecidableEq

/-- The `for email_uid in email_uids` loop of `_process_new_emails`
(lines 479-491): any `None` from `_process_email` breaks the loop. -/
def processNewEmailsLoop (env : PollEnv) :
    List EmailMsg → PollerState → PollStats → PollStats × PollerState
  | [], st, stats => (stats, st)
  | m :: rest, st, stats =>
    let stats₁ : PollStats := { stats with emailsChecked := stats.emailsChecked + 1 }
    match processEmail env st m with
    | (none, st') => (stats₁, st')
    | (some _, st') =>
      processNewEmailsLoop env rest st'
        { stats₁ with emailsProcessed := stats₁.emailsProcessed + 1 }

/-- `_process_new_emails` (lines 458-496) on an already-retrieved,
newest-first search result. -/
def processNewEmails (env : PollEnv) (st : PollerState) (msgs : List EmailMsg) :
    PollStats × PollerState :=
  processNewEmailsLoop env msgs st ⟨0, 0⟩

/-! ## Work-queue ordering (`PCRPollingService._get_pdf_files`, lines 279-289) -/

/-- A directory entry: file name and last-modified time (`st_mtime`). -/
structure FileEnt where
  name : String
  mtime : Nat
deriving Repr, DecidableEq

/-- `Path.glob('*.pdf')`: the name ends in `.pdf`.  Unlike the `glob`
module, `pathlib.Path.glob` also matches dot-prefixed (hidden) names, so no
further restriction applies. -/
def matchesPdfGlob (n : String) : Bool :=
  strEndsWith n ".pdf"

/-- Ascending order on modification times, the key of `pdf_files.sort`. -/
def mtimeLE (a b : FileEnt) : Prop := a.mtime ≤ b.mtime

instance : DecidableRel mtimeLE := fun a b => Nat.decLe a.mtime b.mtime

instance : IsTotal FileEnt mtimeLE := ⟨fun a b => Nat.le_total a.mtime b.mtime⟩

instance : IsTrans FileEnt mtimeLE := ⟨fun _ _ _ => Nat.le_trans⟩

/-- `_get_pdf_files`: glob then a stable ascending sort by modification time
(Python's `list.sort` is stable; a stable insertion sort computes the same
list). -/
def getPdfFiles (dir : List FileEnt) : List FileEnt :=
  List.insertionSort mtimeLE (dir.filter (fun f => matchesPdfGlob f.name))

/-! ## Quarantine move (`PCRPollingService._move_to_error_dir`,
lines 291-312) -/

/-- `Path.stem` / `Path.suffix`: split a file name at its last dot; a name
with no dot, or whose only dot is the leading character, has no suffix. -/
def splitExt (n : String) : String × String :=
  let rev := n.toList.reverse
  let after := rev.takeWhile (· ≠ '.')
  match rev.dropWhile (· ≠ '.') with
  | [] => (n, "")
  | _ :: before =>
    if before.isEmpty then (n, "")
    else (String.mk before.reverse, String.mk ('.' :: after.reverse))

/-- The filesystem state the work-queue processor manipulates: names in the
watch directory, names of quarantined PDFs, and the diagnostic text files
(name, content) in the error directory. -/
structure WorkFs where
  workDir : List String
  errorPdfs : List String
  errorNotes : List (String × String)
deriving Repr, DecidableEq

/-- `open(path, 'w')`: overwrite an existing file of that name or create a
new one. -/
def writeTextFile (notes : List (String × String)) (name content : String) :
    List (String × String) :=
  if (notes.map Prod.fst).contains name then
    notes.map (fun p => if p.1 = name then (name, content) else p)
  else notes ++ [(name, content)]

/-- `_move_to_error_dir`: rename the PDF into the error directory as
`<stem>_<timestamp><suffix>` and write the `.error.txt` sidecar next to it
(`with_suffix` replaces the renamed file's last suffix).  `ts` is the
formatted `datetime.now()` of line 299 and `nowIso` the `isoformat()` of
line 310. -/
def moveToErrorDir (fs : WorkFs) (pdfName ts nowIso errMsg : String) : WorkFs :=
  let stem := (splitExt pdfName).1
  let sfx := (splitExt pdfName).2
  let errorFilename := stem ++ "_" ++ ts ++ sfx
  let noteName := (splitExt errorFilename).1 ++ ".error.txt"
  let content :=
    "Error occurred at: " ++ nowIso ++ "\n" ++
    "Original file: " ++ pdfName ++ "\n" ++
    "\nError message:\n" ++ errMsg ++ "\n"
  { workDir := fs.workDir.erase pdfName
    errorPdfs := addFile fs.errorPdfs errorFilename
    errorNotes := writeTextFile fs.errorNotes noteName content }

/-! ## JSON values and Python-semantics helpers for the gateway -/

/-- A JSON value as `json.loads` produces it.  Python cannot distinguish a
JSON `null` from an absent-key `None`, so `null` doubles as Python `None`
throughout. -/
inductive Json where
  | null
  | bool (b : Bool)
  | num (n : Int)
  | str (s : String)
  | arr (xs : List Json)
  | obj (kvs : List (String × Json))

/-- Key lookup in a JSON object's field list (dict keys are unique). -/
def lookupKey : List (String × Json) → String → Option Json
  | [], _ => none
  | (k, v) :: rest, key => if k = key then some v else lookupKey rest key

/-- `dict.pop(k, None)` as far as the remaining dict is concerned. -/
def removeKey (kvs : List (String × Json)) (k : String) : List (String × Json) :=
  kvs.filter (fun p => p.1 ≠ k)

/-- Python truthiness of a decoded JSON value. -/
def pyTruthy : Json → Bool
  | .null => false
  | .bool b => b
  | .num n => n ≠ 0
  | .str s => s ≠ ""
  | .arr xs => !xs.isEmpty
  | .obj kvs => !kvs.isEmpty

/-- The Python exceptions the gateway code distinguishes. -/
inductive PyErr where
  | keyError (m : String)
  | valueError (m : String)
  | typeError (m : String)
  | attributeError (m : String)
deriving Repr, DecidableEq

/-- Python `len(x)` on a decoded JSON value. -/
def pyLen : Json → Except PyErr Nat
  | .str s => .ok s.length
  | .arr xs => .ok xs.length
  | .obj kvs => .ok kvs.length
  | _ => .error (.typeError "object has no len()")

/-- Python `x[:n]` on a decoded JSON value. -/
def pySliceTo (j : Json) (n : Nat) : Except PyErr Json :=
  match j with
  | .str s => .ok (.str (String.mk (s.toList.take n)))
  | .arr xs => .ok (.arr (xs.take n))
  | _ => .error (.typeError "object is not subscriptable")

/-- `x.get(k)` where `x` should be a dict: `AttributeError` otherwise; a
missing key yields Python `None`, merged with JSON `null`. -/
def pyGetMerged (j : Json) (k : String) : Except PyErr Json :=
  match j with
  | .obj kvs => .ok ((lookupKey kvs k).getD .null)
  | _ => .error (.attributeError "object has no attribute get")

/-- `x.get(k, d)` where `x` should be a dict. -/
def pyGetDefault (j : Json) (k : String) (d : Json) : Except PyErr Json :=
  match j with
  | .obj kvs => .ok ((lookupKey kvs k).getD d)
  | _ => .error (.attributeError "object has no attribute get")

/-- Digits to a natural number. -/
def digitsToNat (ds : List Char) : Nat :=
  ds.foldl (fun a c => a * 10 + (c.toNat - '0'.toNat)) 0

/-- Python `int(s)` on a string: optional surrounding whitespace, optional
sign, then decimal digits (the underscore-separator extension is not used by
any input of interest). -/
def pyStrToInt (s : String) : Option Int :=
  match (pyStrip s).toList with
  | '-' :: rest =>
    if !rest.isEmpty && rest.all Char.isDigit then some (-(digitsToNat rest : Int)) else none
  | '+' :: rest =>
    if !rest.isEmpty && rest.all Char.isDigit then some (digitsToNat rest : Int) else none
  | cs =>
    if !cs.isEmpty && cs.all Char.isDigit then some (digitsToNat cs : Int) else none

/-- Python `int(x)` on a decoded JSON value (`bool` is an `int` subtype in
Python; floats do not occur in the modelled payloads). -/
def pyInt : Json → Except PyErr Int
  | .num n => .ok n
  | .bool b => .ok (if b then 1 else 0)
  | .str s =>
    match pyStrToInt s with
    | some n => .ok n
    | none => .error (.valueError "invalid literal for int()")
  | _ => .error (.typeError "int() argument must be a string or a number")


/-- Python `repr()` of a decoded JSON value (string escaping inside
containers elided; only scalar cases are ever interpolated into the error
messages the claims inspect). -/
def pyRepr : Json → String
  | .null => "None"
  | .bool true => "True"
  | .bool false => "False"
  | .num n => toString n
  | .str s => "\x27" ++ s ++ "\x27"
  | .arr xs => "[" ++ String.intercalate ", " (xs.attach.map (fun x => pyRepr x.1)) ++ "]"
  | .obj kvs =>
    "\x7b" ++
      String.intercalate ", "
        (kvs.attach.map (fun p => "\x27" ++ p.1.1 ++ "\x27: " ++ pyRepr p.1.2)) ++
    "\x7d"
decreasing_by
  · have h := List.sizeOf_lt_of_mem x.2
    simp_wf
    omega
  · obtain ⟨⟨a, b⟩, hp⟩ := p
    have h := List.sizeOf_lt_of_mem hp
    simp_wf
    simp at h
    omega

/-- Python `str()` of a decoded JSON value, as an f-string interpolates it. -/
def pyStr (j : Json) : String :=
  match j with
  | .str s => s
  | _ => pyRepr j

/-- Lower-case hex digit. -/
def hexDigit (n : Nat) : Char :=
  if n < 10 then Char.ofNat ('0'.toNat + n) else Char.ofNat ('a'.toNat + (n - 10))

/-- Four lower-case hex digits, as `json.dumps` escapes control and
non-ASCII characters. -/
def hex4 (n : Nat) : String :=
  String.mk [hexDigit (n / 4096 % 16), hexDigit (n / 256 % 16),
    hexDigit (n / 16 % 16), hexDigit (n % 16)]

/-- One character under the `json.dumps` default escaping
(`ensure_ascii=True`; astral characters, which would need surrogate pairs,
do not occur in the payloads). -/
def jsonEscapeChar (c : Char) : String :=
  if c = '"' then "\\\""
  else if c = '\\' then "\\\\"
  else if c = '\n' then "\\n"
  else if c = '\t' then "\\t"
  else if c = '\r' then "\\r"
  else if c.toNat = 8 then "\\b"
  else if c.toNat = 12 then "\\f"
  else if c.toNat < 32 || c.toNat > 126 then "\\u" ++ hex4 c.toNat
  else String.mk [c]

/-- A JSON string literal as `json.dumps` writes it. -/
def jsonDumpsStr (s : String) : String :=
  "\"" ++ String.join (s.toList.map jsonEscapeChar) ++ "\""

/-- `json.dumps` with default separators, serializing the payload for the
record content field. -/
def jsonDumps : Json → String
  | .null => "null"
  | .bool true => "true"
  | .bool false => "false"
  | .num n => toString n
  | .str s => jsonDumpsStr s
  | .arr xs => "[" ++ String.intercalate ", " (xs.attach.map (fun x => jsonDumps x.1)) ++ "]"
  | .obj kvs =>
    "\x7b" ++
      String.intercalate ", "
        (kvs.attach.map (fun p => jsonDumpsStr p.1.1 ++ ": " ++ jsonDumps p.1.2)) ++
    "\x7d"
decreasing_by
  · have h := List.sizeOf_lt_of_mem x.2
    simp_wf
    omega
  · obtain ⟨⟨a, b⟩, hp⟩ := p
    have h := List.sizeOf_lt_of_mem hp
    simp_wf
    simp at h
    omega

/-! ## Datetime normalization (`SupabaseGateway._parse_datetime`,
lines 194-219) -/

/-- Days in a month of the proleptic Gregorian calendar, as `datetime`
validates them. -/
def daysInMonth (year month : Nat) : Nat :=
  if month = 2 then
    if (year % 4 = 0 && year % 100 ≠ 0) || year % 400 = 0 then 29 else 28
  else if month = 4 || month = 6 || month = 9 || month = 11 then 30 else 31

/-- Greedy digit run, as the `strptime` regex consumes numeric fields. -/
def takeDigits (cs : List Char) : List Char × List Char :=
  (cs.takeWhile Char.isDigit, cs.dropWhile Char.isDigit)

/-- Two-digit zero-padded decimal. -/
def pad2 (n : Nat) : String :=
  if n < 10 then "0" ++ toString n else toString n

/-- Four-digit zero-padded decimal. -/
def pad4 (n : Nat) : String :=
  if n < 10 then "000" ++ toString n
  else if n < 100 then "00" ++ toString n
  else if n < 1000 then "0" ++ toString n
  else toString n

/-- The `strptime("%m/%d/%Y %H:%M:%S")` match: month and day are one or two
digits in range, the year exactly four digits, the separator a nonempty
whitespace run, time fields one or two digits in range, nothing left over. -/
def strptimeParts (cs : List Char) : Option (Nat × Nat × Nat × Nat × Nat × Nat) :=
  let (mds, r1) := takeDigits cs
  match r1 with
  | '/' :: r2 =>
    let (dds, r3) := takeDigits r2
    match r3 with
    | '/' :: r4 =>
      let (yds, r5) := takeDigits r4
      match r5 with
      | w :: r6 =>
        if !w.isWhitespace then none
        else
          let r7 := r6.dropWhile Char.isWhitespace
          let (hds, r8) := takeDigits r7
          match r8 with
          | ':' :: r9 =>
            let (mins, r10) := takeDigits r9
            match r10 with
            | ':' :: r11 =>
              let (secs, r12) := takeDigits r11
              let m := digitsToNat mds
              let d := digitsToNat dds
              let y := digitsToNat yds
              let hh := digitsToNat hds
              let mi := digitsToNat mins
              let ss := digitsToNat secs
              if r12.isEmpty &&
                  !mds.isEmpty && mds.length ≤ 2 && 1 ≤ m && m ≤ 12 &&
                  !dds.isEmpty && dds.length ≤ 2 && 1 ≤ d && d ≤ 31 &&
                  yds.length = 4 &&
                  !hds.isEmpty && hds.length ≤ 2 && hh ≤ 23 &&
                  !mins.isEmpty && mins.length ≤ 2 && mi ≤ 59 &&
                  !secs.isEmpty && secs.length ≤ 2 && ss ≤ 59 then
                some (m, d, y, hh, mi, ss)
              else none
            | _ => none
          | _ => none
      | [] => none
    | _ => none
  | _ => none

/-- `_parse_datetime`: combine the date and time strings, parse with
`strptime`, validate through the `datetime` constructor, and return the
`isoformat()` string; any failure is wrapped in a `ValueError` quoting the
raw strings. -/
def parseDateTime (dateStr timeStr : String) : Except PyErr String :=
  let combined := dateStr ++ " " ++ timeStr
  let failed : Except PyErr String :=
    .error (.valueError ("Failed to parse datetime \x27" ++ combined ++
      "\x27: time data does not match format"))
  match strptimeParts combined.toList with
  | none => failed
  | some (m, d, y, hh, mi, ss) =>
    if y = 0 || d > daysInMonth y m then failed
    else
      .ok (pad4 y ++ "-" ++ pad2 m ++ "-" ++ pad2 d ++ "T" ++
        pad2 hh ++ ":" ++ pad2 mi ++ ":" ++ pad2 ss)

/-! ## Record preparation and upsert (`SupabaseGateway._prepare_record` /
`upsert_pcr_data`, lines 63-192) -/

/-- The record shape inserted into `rip_and_runs` (Python `None` values kept
as JSON `null`). -/
structure DbRecord where
  incident_number : Int
  unit_id : Json
  content : String
  incident_date : String
  location : Json
  incident_type : Json

/-- The truncation step applied to the optional `location` and
`incident_type` fields: `if v and len(v) > limit: v = v[:limit]`. -/
def truncIfLong (v : Json) (limit : Nat) : Except PyErr Json :=
  if pyTruthy v then
    match pyLen v with
    | .error e => .error e
    | .ok n => if n > limit then pySliceTo v limit else .ok v
  else .ok v

/-- `_prepare_record`, translated statement by statement. -/
def prepRecord (pcrJson : List (String × Json)) (unitId : Json) :
    Except PyErr DbRecord := do
  let incidentTimes := (lookupKey pcrJson "incidentTimes").getD (.obj [])
  let cad ← pyGetMerged incidentTimes "cad"
  let incident_number ← match cad with
    | .null => throw (.keyError "incidentTimes.cad")
    | _ =>
      match pyInt cad with
      | .ok n => pure n
      | .error _ =>
        throw (.valueError ("CAD number \x27" ++ pyStr cad ++
          "\x27 cannot be converted to integer"))
  let times ← pyGetDefault incidentTimes "times" (.obj [])
  let notifiedByDispatch ← pyGetDefault times "notifiedByDispatch" (.obj [])
  if !pyTruthy notifiedByDispatch then
    throw (.keyError "incidentTimes.times.notifiedByDispatch")
  let dateVal ← pyGetMerged notifiedByDispatch "date"
  let timeVal ← pyGetMerged notifiedByDispatch "time"
  if !pyTruthy dateVal || !pyTruthy timeVal then
    throw (.keyError "notifiedByDispatch.date or notifiedByDispatch.time")
  let incident_date ← parseDateTime (pyStr dateVal) (pyStr timeVal)
  let incidentLocation := (lookupKey pcrJson "incidentLocation").getD (.obj [])
  let location₀ ← pyGetMerged incidentLocation "raw"
  let location ← truncIfLong location₀ 300
  let incidentType₀ ← pyGetMerged incidentTimes "incident_type"
  let incident_type ← truncIfLong incidentType₀ 20
  let content := jsonDumps (.obj pcrJson)
  pure
    { incident_number, unit_id := unitId, content, incident_date, location,
      incident_type }

/-- The dictionary `upsert_pcr_data` returns. -/
structure UpsertResult where
  success : Bool
  incident_number : Option Int := none
  unit_id : Option Json := none
  error : Option String := none

/-- `str()` of a caught exception: `KeyError` shows the quoted key, the
others show their message. -/
def pyErrMsg : PyErr → String
  | .keyError m => "\x27" ++ m ++ "\x27"
  | .valueError m => m
  | .typeError m => m
  | .attributeError m => m

/-- `upsert_pcr_data`: extract the unit id when not provided, prepare the
record, run the external upsert (injected as `db`), and turn every caught
exception into a `success: false` result. -/
def upsertPcrData (pcrJson : List (String × Json)) (unitIdArg : Option Json)
    (db : DbRecord → Except String Unit) : UpsertResult :=
  let core : Except PyErr DbRecord := do
    let unitId ← match unitIdArg with
      | some u => pure u
      | none => do
        let incidentTimes := (lookupKey pcrJson "incidentTimes").getD (.obj [])
        let u ← pyGetMerged incidentTimes "unit_dispatched"
        if !pyTruthy u then
          throw (.keyError "incidentTimes.unit_dispatched not found and unit_id not provided")
        pure u
    prepRecord pcrJson unitId
  match core with
  | .error (.keyError m) =>
    { success := false
      error := some ("Missing required field in PCR JSON: \x27" ++ m ++ "\x27") }
  | .error e =>
    { success := false, error := some ("Database operation failed: " ++ pyErrMsg e) }
  | .ok record =>
    match db record with
    | .ok _ =>
      { success := true, incident_number := some record.incident_number
        unit_id := some record.unit_id }
    | .error e =>
      { success := false, error := some ("Database operation failed: " ++ e) }

/-! ## Per-item state machine (`PCRPollingService._process_pdf`,
lines 314-386) -/

/-- The observable events of one `_process_pdf` call, in program order. -/
inductive ItemEvent where
  | interpretOk
  | interpretErr
  | persistOk
  | persistErr
  | fileDeleted
  | fileQuarantined
deriving Repr, DecidableEq

/-- `_process_pdf` as an event trace: `parse` is the interpretation call
(`.error` models an exception escaping `parse_pdf`, `.ok` its returned dict),
`gatewayInit` the `SupabaseGateway()` construction, `db` the external upsert.
Every failure path quarantines; the delete happens only on the success
path after the upsert reported success. -/
def processPdfTrace (parse : Except String (List (String × Json)))
    (gatewayInit : Except String Unit) (db : DbRecord → Except String Unit) :
    List ItemEvent :=
  match parse with
  | .error _ => [.interpretErr, .fileQuarantined]
  | .ok result =>
    if (lookupKey result "error").isSome then [.interpretErr, .fileQuarantined]
    else
      let result₁ := removeKey result "_token_usage"
      match gatewayInit with
      | .error _ => [.interpretOk, .persistErr, .fileQuarantined]
      | .ok _ =>
        if (upsertPcrData result₁ none db).success then
          [.interpretOk, .persistOk, .fileDeleted]
        else [.interpretOk, .persistErr, .fileQuarantined]


end PcrUtils

/-- C4: the scheduler is a pure function of the hour and the night boundaries:
its night test agrees with the spec's formula (wraparound when
`night_start > night_end`), it returns the night interval exactly on night
hours and the day interval otherwise, and for night_start=23, night_end=6
hour 0 is night, hour 12 is day, hour 23 is night, hour 6 is day. -/
theorem C4_scheduler_pure (nightStart nightEnd dayInterval nightInterval hour : Nat) :
    (PcrUtils.isNightHour nightStart nightEnd hour = true ↔
      PcrUtils.specNight nightStart nightEnd hour) ∧
    PcrUtils.getPollInterval nightStart nightEnd dayInterval nightInterval hour =
      (if PcrUtils.specNight nightStart nightEnd hour then nightInterval else dayInterval) ∧
    PcrUtils.isNightHour 23 6 0 = true ∧
    PcrUtils.isNightHour 23 6 12 = false ∧
    PcrUtils.isNightHour 23 6 23 = true ∧
    PcrUtils.isNightHour 23 6 6 = false := by
  refine ⟨?_, ?_, by decide, by decide, by decide, by decide⟩
  · unfold PcrUtils.isNightHour PcrUtils.specNight
    split <;> simp [Nat.lt_iff_add_one_le]
  · unfold PcrUtils.getPollInterval PcrUtils.isNightHour PcrUtils.specNight
    split <;> simp_all

/-- Helper: the target subject matches its own pattern. -/
theorem targetSubjectMatches : PcrUtils.checkSubjectMatch PcrUtils.TARGET_SUBJECT = true := by
  decide

/-- C1: the claim says a subject-mismatch message is marked processed and the
cycle CONTINUES to the next (older) message, and an exception leaves the
message not-processed with the cycle continuing; in the code `_process_email`
returns `None` in both of those cases and `_process_new_emails` breaks the
loop on any `None`, so both cases halt the cycle.  At the failing input the
older matching message `<B@x>` is never processed and its attachment never
extracted, in both failure modes. -/
theorem C1_none_return_halts_cycle :
    (PcrUtils.processNewEmails ⟨"ts1", "ts2", false⟩ ⟨[], [], []⟩
        [⟨"101", .ok "<A@x>" "hello" []⟩,
         ⟨"102", .ok "<B@x>" PcrUtils.TARGET_SUBJECT
            [⟨"application", "application/pdf", some "attachment", some "fax.pdf", true⟩]⟩] =
      (⟨1, 0⟩, ⟨["<A@x>"], ["<A@x>"], []⟩)) ∧
    (PcrUtils.processNewEmails ⟨"ts1", "ts2", false⟩ ⟨[], [], []⟩
        [⟨"101", .raises⟩,
         ⟨"102", .ok "<B@x>" PcrUtils.TARGET_SUBJECT
            [⟨"application", "application/pdf", some "attachment", some "fax.pdf", true⟩]⟩] =
      (⟨1, 0⟩, ⟨[], [], []⟩)) := by
  constructor <;> decide

/-- C3: a message whose (stripped) Message-ID is already in the processed set
is returned as `None` with the state unchanged — nothing extracted, nothing
re-appended — and in the cycle over processed-set `{M3}` and newest-first
result `[M5, M4, M3, M2, M1]` only `M5` and `M4` are newly processed, the
cycle checks three messages, and `M2`, `M1` stay untouched. -/
theorem C3_idempotent_and_short_circuit :
    (∀ (env : PcrUtils.PollEnv) (st : PcrUtils.PollerState) (m : PcrUtils.EmailMsg)
       (mid subject : String) (parts : List PcrUtils.MimePart),
       m.fetch = .ok mid subject parts →
       PcrUtils.pyStrip mid ∈ st.processed →
       PcrUtils.processEmail env st m = (none, st)) ∧
    (PcrUtils.processNewEmails ⟨"ts1", "ts2", false⟩ ⟨["<M3>"], ["<M3>"], []⟩
        [⟨"5", .ok "<M5>" PcrUtils.TARGET_SUBJECT []⟩,
         ⟨"4", .ok "<M4>" PcrUtils.TARGET_SUBJECT []⟩,
         ⟨"3", .ok "<M3>" PcrUtils.TARGET_SUBJECT []⟩,
         ⟨"2", .ok "<M2>" PcrUtils.TARGET_SUBJECT []⟩,
         ⟨"1", .ok "<M1>" PcrUtils.TARGET_SUBJECT []⟩] =
      (⟨3, 2⟩, ⟨["<M3>", "<M5>", "<M4>"], ["<M3>", "<M5>", "<M4>"], []⟩)) := by
  constructor
  · intro env st m mid subject parts hf hmem
    simp only [PcrUtils.processEmail, hf]
    by_cases h0 : PcrUtils.pyStrip mid = ""
    · simp [h0]
    · simp [h0, hmem]
  · decide

/-- C3 witness: the general idempotence part applied to the concrete state
with processed-set `{<M3>}` and a fresh fetch of `<M3>`. -/
theorem C3_idempotent_and_short_circuit_witness :
    PcrUtils.processEmail ⟨"ts1", "ts2", false⟩ ⟨["<M3>"], ["<M3>"], []⟩
        ⟨"3", .ok "<M3>" PcrUtils.TARGET_SUBJECT []⟩ =
      (none, ⟨["<M3>"], ["<M3>"], []⟩) :=
  C3_idempotent_and_short_circuit.1 ⟨"ts1", "ts2", false⟩ ⟨["<M3>"], ["<M3>"], []⟩
    ⟨"3", .ok "<M3>" PcrUtils.TARGET_SUBJECT []⟩ "<M3>" PcrUtils.TARGET_SUBJECT []
    rfl (by decide)

/-- C10: the dedup store never raises: a missing state file or a failed read
loads the empty set, and a failed append still records the identifier in the
in-memory set, leaves the durable file unchanged, and the freshly fetched
message is still treated as processed (the cycle gets its Message-ID back and
the in-memory set now contains it). -/
theorem C10_dedup_store_degrades_silently :
    (∀ b, PcrUtils.loadProcessedIds none b = []) ∧
    (∀ lines, PcrUtils.loadProcessedIds (some lines) true = []) ∧
    (∀ (st : PcrUtils.PollerState) (mid : String),
       (mid ∈ (PcrUtils.addProcessedId true st mid).processed) ∧
       (PcrUtils.addProcessedId true st mid).stateFile = st.stateFile) ∧
    (∀ (env : PcrUtils.PollEnv) (st : PcrUtils.PollerState) (m : PcrUtils.EmailMsg)
       (mid : String) (parts : List PcrUtils.MimePart),
       env.appendFails = true →
       m.fetch = .ok mid PcrUtils.TARGET_SUBJECT parts →
       PcrUtils.pyStrip mid ∉ st.processed →
       PcrUtils.pyStrip mid ≠ "" →
       (PcrUtils.processEmail env st m).1 = some (PcrUtils.pyStrip mid) ∧
       (PcrUtils.pyStrip mid ∈ (PcrUtils.processEmail env st m).2.processed) ∧
       (PcrUtils.processEmail env st m).2.stateFile = st.stateFile) := by
  refine ⟨fun _ => rfl, fun _ => rfl, ?_, ?_⟩
  · intro st mid
    unfold PcrUtils.addProcessedId
    refine ⟨?_, by simp⟩
    by_cases h : mid ∈ st.processed
    · simp [h]
    · simp [h]
  · intro env st m mid parts happ hf hmem hne
    simp only [PcrUtils.processEmail, hf]
    simp [hne, hmem, targetSubjectMatches, PcrUtils.addProcessedId, happ]

/-- C10 witness: the failed-append part applied to a concrete fresh message
with `appendFails = true`. -/
theorem C10_dedup_store_degrades_silently_witness :
    (PcrUtils.processEmail ⟨"ts1", "ts2", true⟩ ⟨[], [], []⟩
        ⟨"9", .ok "<N9>" PcrUtils.TARGET_SUBJECT []⟩).1 =
      some (PcrUtils.pyStrip "<N9>") ∧
    (PcrUtils.pyStrip "<N9>" ∈
      (PcrUtils.processEmail ⟨"ts1", "ts2", true⟩ ⟨[], [], []⟩
        ⟨"9", .ok "<N9>" PcrUtils.TARGET_SUBJECT []⟩).2.processed) ∧
    (PcrUtils.processEmail ⟨"ts1", "ts2", true⟩ ⟨[], [], []⟩
        ⟨"9", .ok "<N9>" PcrUtils.TARGET_SUBJECT []⟩).2.stateFile = [] :=
  C10_dedup_store_degrades_silently.2.2.2 ⟨"ts1", "ts2", true⟩ ⟨[], [], []⟩
    ⟨"9", .ok "<N9>" PcrUtils.TARGET_SUBJECT []⟩ "<N9>" []
    rfl rfl (by decide) (by decide)

/-- C9: `_get_pdf_files` returns a permutation of the `*.pdf` entries sorted
ascending by modification time, and the A(3), B(1), C(2) example processes as
B, C, A. -/
theorem C9_work_queue_ordering :
    (∀ dir : List PcrUtils.FileEnt,
       List.Sorted PcrUtils.mtimeLE (PcrUtils.getPdfFiles dir) ∧
       (PcrUtils.getPdfFiles dir).Perm
         (dir.filter (fun f => PcrUtils.matchesPdfGlob f.name))) ∧
    PcrUtils.getPdfFiles [⟨"A.pdf", 3⟩, ⟨"B.pdf", 1⟩, ⟨"C.pdf", 2⟩] =
      [⟨"B.pdf", 1⟩, ⟨"C.pdf", 2⟩, ⟨"A.pdf", 3⟩] :=
  ⟨fun _ => ⟨List.sorted_insertionSort _ _, List.perm_insertionSort _ _⟩, by decide⟩

/-- Helper: splitting `X ++ ".pdf"` at the last dot recovers `(X, ".pdf")`
for nonempty `X`, whatever dots `X` itself contains. -/
theorem splitExt_append_pdf (X : String) (hX : X ≠ "") :
    PcrUtils.splitExt (X ++ ".pdf") = (X, ".pdf") := by
  obtain ⟨d⟩ := X
  have hne : d ≠ [] := by
    intro h
    exact hX (by simp [h])
  unfold PcrUtils.splitExt
  have hdata : ((⟨d⟩ : String) ++ ".pdf").toList = d ++ ['.', 'p', 'd', 'f'] := rfl
  rw [hdata, List.reverse_append]
  have h1 : (['.', 'p', 'd', 'f'] : List Char).reverse = ['f', 'd', 'p', '.'] := rfl
  rw [h1]
  have h2 : List.takeWhile (fun x => decide (x ≠ '.')) (['f', 'd', 'p', '.'] ++ d.reverse) =
      ['f', 'd', 'p'] := rfl
  have h3 : List.dropWhile (fun x => decide (x ≠ '.')) (['f', 'd', 'p', '.'] ++ d.reverse) =
      '.' :: d.reverse := rfl
  have h4 : d.reverse ≠ [] := by simpa using hne
  simp only [h2, h3, List.isEmpty_iff, h4, if_false, List.reverse_reverse]
  exact Prod.ext rfl rfl

/-- C8: quarantining `<stem>.pdf` removes it from the work directory, places
`<stem>_<timestamp>.pdf` in the error directory, and writes exactly one
sidecar `<stem>_<timestamp>.error.txt` whose content carries the failure
timestamp, the original filename and the error text. -/
theorem C8_quarantine_rename_and_sidecar :
    ∀ (fs : PcrUtils.WorkFs) (stem ts nowIso msg : String),
      stem ≠ "" →
      fs.workDir.Nodup →
      (stem ++ "_" ++ ts ++ ".error.txt") ∉ fs.errorNotes.map Prod.fst →
      (stem ++ ".pdf") ∉ (PcrUtils.moveToErrorDir fs (stem ++ ".pdf") ts nowIso msg).workDir ∧
      (stem ++ "_" ++ ts ++ ".pdf") ∈
        (PcrUtils.moveToErrorDir fs (stem ++ ".pdf") ts nowIso msg).errorPdfs ∧
      ((PcrUtils.moveToErrorDir fs (stem ++ ".pdf") ts nowIso msg).errorNotes.map
          Prod.fst).count (stem ++ "_" ++ ts ++ ".error.txt") = 1 ∧
      (stem ++ "_" ++ ts ++ ".error.txt",
        "Error occurred at: " ++ nowIso ++ "\n" ++ "Original file: " ++ (stem ++ ".pdf") ++ "\n" ++
        "\nError message:\n" ++ msg ++ "\n") ∈
        (PcrUtils.moveToErrorDir fs (stem ++ ".pdf") ts nowIso msg).errorNotes := by
  intro fs stem ts nowIso msg hstem hnd hfresh
  have hs1 : PcrUtils.splitExt (stem ++ ".pdf") = (stem, ".pdf") :=
    splitExt_append_pdf stem hstem
  have hX : (stem ++ "_" ++ ts) ≠ "" := by
    intro h
    apply congrArg String.length at h
    simp [String.length_append] at h
    exact absurd h.1.2 (by decide)
  have hs2 : PcrUtils.splitExt (stem ++ "_" ++ ts ++ ".pdf") = (stem ++ "_" ++ ts, ".pdf") :=
    splitExt_append_pdf (stem ++ "_" ++ ts) hX
  unfold PcrUtils.moveToErrorDir
  simp only [hs1, hs2]
  refine ⟨?_, ?_, ?_, ?_⟩
  · simp [hnd.mem_erase_iff]
  · unfold PcrUtils.addFile
    by_cases h : (stem ++ "_" ++ ts ++ ".pdf") ∈ fs.errorPdfs
    · simp [h]
    · simp [h]
  · unfold PcrUtils.writeTextFile
    have hc : ((fs.errorNotes.map Prod.fst).contains (stem ++ "_" ++ ts ++ ".error.txt")) =
        false := by
      simpa using hfresh
    rw [hc]
    simp [List.count_append, List.count_eq_zero.mpr hfresh]
  · unfold PcrUtils.writeTextFile
    have hc : ((fs.errorNotes.map Prod.fst).contains (stem ++ "_" ++ ts ++ ".error.txt")) =
        false := by
      simpa using hfresh
    rw [hc]
    simp

/-- C8 witness: the quarantine shape at a concrete failing item. -/
theorem C8_quarantine_rename_and_sidecar_witness :
    ("incident" ++ ".pdf") ∉
      (PcrUtils.moveToErrorDir ⟨["incident.pdf", "other.pdf"], [], []⟩
        ("incident" ++ ".pdf") "20250101_120000" "2025-01-01T12:00:05" "Parse failed").workDir ∧
    ("incident" ++ "_" ++ "20250101_120000" ++ ".pdf") ∈
      (PcrUtils.moveToErrorDir ⟨["incident.pdf", "other.pdf"], [], []⟩
        ("incident" ++ ".pdf") "20250101_120000" "2025-01-01T12:00:05" "Parse failed").errorPdfs ∧
    ((PcrUtils.moveToErrorDir ⟨["incident.pdf", "other.pdf"], [], []⟩
        ("incident" ++ ".pdf") "20250101_120000" "2025-01-01T12:00:05" "Parse failed").errorNotes.map
          Prod.fst).count ("incident" ++ "_" ++ "20250101_120000" ++ ".error.txt") = 1 ∧
    ("incident" ++ "_" ++ "20250101_120000" ++ ".error.txt",
      "Error occurred at: " ++ "2025-01-01T12:00:05" ++ "\n" ++ "Original file: " ++
        ("incident" ++ ".pdf") ++ "\n" ++
      "\nError message:\n" ++ "Parse failed" ++ "\n") ∈
      (PcrUtils.moveToErrorDir ⟨["incident.pdf", "other.pdf"], [], []⟩
        ("incident" ++ ".pdf") "20250101_120000" "2025-01-01T12:00:05" "Parse failed").errorNotes :=
  C8_quarantine_rename_and_sidecar ⟨["incident.pdf", "other.pdf"], [], []⟩
    "incident" "20250101_120000" "2025-01-01T12:00:05" "Parse failed"
    (by decide) (by decide) (by simp)

/-- C5: on the example payload with a provided unit id, `_prepare_record`
produces incident_number 12345 (integer), incident_date
2025-12-08T14:30:00, keeps the unit id, and stores the whole raw payload
serialized in the content field. -/
theorem C5_transformer_example (u : PcrUtils.Json) :
    ∃ r, PcrUtils.prepRecord
        [("incidentTimes", .obj [("cad", .str "12345"),
          ("times", .obj [("notifiedByDispatch", .obj
            [("date", .str "12/08/2025"), ("time", .str "14:30:00")])])])] u = .ok r ∧
      r.incident_number = 12345 ∧
      r.incident_date = "2025-12-08T14:30:00" ∧
      r.content = PcrUtils.jsonDumps (.obj
        [("incidentTimes", .obj [("cad", .str "12345"),
          ("times", .obj [("notifiedByDispatch", .obj
            [("date", .str "12/08/2025"), ("time", .str "14:30:00")])])])]) ∧
      r.unit_id = u :=
  ⟨_, rfl, rfl, rfl, rfl, rfl⟩

/-- C6: with a provided unit id, a missing nested cad field yields a
returned failure whose error names `incidentTimes.cad`, and a present but
non-coercible cad yields a returned failure whose error text carries the
offending raw value; neither case raises. -/
theorem C6_cad_validation_failures :
    (∀ (pcrJson itKvs : List (String × PcrUtils.Json)) (u : PcrUtils.Json)
       (db : PcrUtils.DbRecord → Except String Unit),
       (PcrUtils.lookupKey pcrJson "incidentTimes").getD (.obj []) = .obj itKvs →
       (PcrUtils.lookupKey itKvs "cad").getD .null = .null →
       PcrUtils.upsertPcrData pcrJson (some u) db =
         { success := false,
           error := some "Missing required field in PCR JSON: \x27incidentTimes.cad\x27" }) ∧
    (∀ (pcrJson itKvs : List (String × PcrUtils.Json)) (u cad : PcrUtils.Json)
       (db : PcrUtils.DbRecord → Except String Unit) (e : PcrUtils.PyErr),
       (PcrUtils.lookupKey pcrJson "incidentTimes").getD (.obj []) = .obj itKvs →
       (PcrUtils.lookupKey itKvs "cad").getD .null = cad →
       cad ≠ .null →
       PcrUtils.pyInt cad = .error e →
       PcrUtils.upsertPcrData pcrJson (some u) db =
         { success := false,
           error := some ("Database operation failed: " ++
             ("CAD number \x27" ++ PcrUtils.pyStr cad ++
               "\x27 cannot be converted to integer")) }) := by
  constructor
  · intro pcrJson itKvs u db h1 h2
    simp only [PcrUtils.upsertPcrData, PcrUtils.prepRecord, h1, PcrUtils.pyGetMerged, h2]
    rfl
  · intro pcrJson itKvs u cad db e h1 h2 h3 h4
    simp only [PcrUtils.upsertPcrData, PcrUtils.prepRecord, h1, PcrUtils.pyGetMerged, h2]
    cases cad with
    | null => exact absurd rfl h3
    | bool b => simp_all [PcrUtils.pyInt]
    | num n => simp_all [PcrUtils.pyInt]
    | str s => simp only [bind, Except.bind, pure, Except.pure, h4, PcrUtils.pyErrMsg]
    | arr xs => simp only [bind, Except.bind, pure, Except.pure, h4, PcrUtils.pyErrMsg]
    | obj kvs => simp only [bind, Except.bind, pure, Except.pure, h4, PcrUtils.pyErrMsg]

/-- C6 witness: both failure modes at concrete payloads. -/
theorem C6_cad_validation_failures_witness :
    (PcrUtils.upsertPcrData [("incidentTimes", PcrUtils.Json.obj [])]
        (some (.str "u1")) (fun _ => .ok ()) =
      { success := false,
        error := some "Missing required field in PCR JSON: \x27incidentTimes.cad\x27" }) ∧
    (PcrUtils.upsertPcrData
        [("incidentTimes", PcrUtils.Json.obj [("cad", .str "abc")])]
        (some (.str "u1")) (fun _ => .ok ()) =
      { success := false,
        error := some ("Database operation failed: " ++
          ("CAD number \x27" ++ PcrUtils.pyStr (.str "abc") ++
            "\x27 cannot be converted to integer")) }) :=
  ⟨C6_cad_validation_failures.1 [("incidentTimes", .obj [])] [] (.str "u1")
      (fun _ => .ok ()) rfl rfl,
   C6_cad_validation_failures.2 [("incidentTimes", .obj [("cad", .str "abc")])]
      [("cad", .str "abc")] (.str "u1") (.str "abc") (fun _ => .ok ())
      (.valueError "invalid literal for int()") rfl rfl
      (fun h => PcrUtils.Json.noConfusion h) rfl⟩

/-- Helper: any string value coming out of the truncation step respects the
limit. -/
theorem truncIfLong_str_le (v : PcrUtils.Json) (s : String) (lim : Nat)
    (h : PcrUtils.truncIfLong v lim = .ok (.str s)) : s.length ≤ lim := by
  unfold PcrUtils.truncIfLong at h
  split at h
  · cases v with
    | str s0 =>
      simp only [PcrUtils.pyLen] at h
      split at h
      · simp only [PcrUtils.pySliceTo, Except.ok.injEq, PcrUtils.Json.str.injEq] at h
        subst h
        have hlen : (String.mk (s0.toList.take lim)).length =
            (s0.toList.take lim).length := rfl
        simp [hlen, List.length_take]
      · simp only [Except.ok.injEq, PcrUtils.Json.str.injEq] at h
        subst h
        omega
    | null => simp [PcrUtils.pyLen] at h
    | bool b => simp [PcrUtils.pyLen] at h
    | num n => simp [PcrUtils.pyLen] at h
    | arr xs =>
      simp only [PcrUtils.pyLen] at h
      split at h <;> simp [PcrUtils.pySliceTo] at h
    | obj kvs =>
      simp only [PcrUtils.pyLen] at h
      split at h <;> simp [PcrUtils.pySliceTo] at h
  · next hf =>
    simp only [Except.ok.injEq] at h
    subst h
    simp only [PcrUtils.pyTruthy] at hf
    simp at hf
    subst hf
    simp

set_option maxRecDepth 8192 in
/-- C7: the optional location and incident_type truncations never error on a
string and return the string itself or its first 300 (resp. 20) characters;
every string stored by the step is within the limit; and a 350-character
location comes out of `_prepare_record` as exactly its first 300
characters. -/
theorem C7_optional_field_truncation :
    (∀ s : String,
       PcrUtils.truncIfLong (.str s) 300 =
         .ok (.str (if 300 < s.length then String.mk (s.toList.take 300) else s)) ∧
       PcrUtils.truncIfLong (.str s) 20 =
         .ok (.str (if 20 < s.length then String.mk (s.toList.take 20) else s))) ∧
    (∀ (v : PcrUtils.Json) (s : String),
       PcrUtils.truncIfLong v 300 = .ok (.str s) → s.length ≤ 300) ∧
    (∀ (v : PcrUtils.Json) (s : String),
       PcrUtils.truncIfLong v 20 = .ok (.str s) → s.length ≤ 20) ∧
    (∃ r, PcrUtils.prepRecord
        [("incidentTimes", .obj [("cad", .num 7),
           ("times", .obj [("notifiedByDispatch", .obj
             [("date", .str "01/02/2025"), ("time", .str "03:04:05")])])]),
         ("incidentLocation", .obj
           [("raw", .str (String.mk (List.replicate 350 'a')))])]
        (.str "MEDIC-1") = .ok r ∧
      r.location = .str (String.mk (List.replicate 300 'a'))) := by
  refine ⟨?_, fun v s => truncIfLong_str_le v s 300,
    fun v s => truncIfLong_str_le v s 20, ?_⟩
  · intro s
    refine ⟨?_, ?_⟩
    · simp only [PcrUtils.truncIfLong, PcrUtils.pyTruthy, PcrUtils.pyLen,
        PcrUtils.pySliceTo]
      by_cases h0 : s = ""
      · simp [h0]
      · by_cases hl : 300 < s.length
        · simp [h0, hl]
        · simp [h0, hl]
    · simp only [PcrUtils.truncIfLong, PcrUtils.pyTruthy, PcrUtils.pyLen,
        PcrUtils.pySliceTo]
      by_cases h0 : s = ""
      · simp [h0]
      · by_cases hl : 20 < s.length
        · simp [h0, hl]
        · simp [h0, hl]
  · refine ⟨_, rfl, ?_⟩
    simp [List.take_replicate]

/-- C7 witness: the bound parts applied at concrete strings. -/
theorem C7_optional_field_truncation_witness :
    ("aaaa" : String).length ≤ 300 ∧ ("xy" : String).length ≤ 20 :=
  ⟨C7_optional_field_truncation.2.1 (.str "aaaa") "aaaa" rfl,
   C7_optional_field_truncation.2.2.1 (.str "xy") "xy" rfl⟩

/-- C2: every `_process_pdf` run ends in exactly one terminal event; a
deleted item's trace is interpret-ok, persist-ok, then delete (so deletion
happens only after the gateway reported success); and deletion occurs
precisely when interpretation returned a dict without an error key, the
gateway constructed, and the upsert reported success. -/
theorem C2_exactly_one_terminal_and_delete_after_persist :
    ∀ (parse : Except String (List (String × PcrUtils.Json)))
      (ctor : Except String Unit) (db : PcrUtils.DbRecord → Except String Unit),
      ((PcrUtils.processPdfTrace parse ctor db).count .fileDeleted +
        (PcrUtils.processPdfTrace parse ctor db).count .fileQuarantined = 1) ∧
      (.fileDeleted ∈ PcrUtils.processPdfTrace parse ctor db →
        PcrUtils.processPdfTrace parse ctor db =
          [.interpretOk, .persistOk, .fileDeleted]) ∧
      (.fileDeleted ∈ PcrUtils.processPdfTrace parse ctor db ↔
        ∃ kvs, parse = .ok kvs ∧ PcrUtils.lookupKey kvs "error" = none ∧
          ctor = .ok () ∧
          (PcrUtils.upsertPcrData (PcrUtils.removeKey kvs "_token_usage") none
            db).success = true) := by
  intro parse ctor db
  unfold PcrUtils.processPdfTrace
  cases parse with
  | error e => simp
  | ok result =>
    cases hk : PcrUtils.lookupKey result "error" with
    | some v => simp [hk]
    | none =>
      cases ctor with
      | error ce => simp [hk]
      | ok u =>
        cases u
        by_cases hs : (PcrUtils.upsertPcrData
            (PcrUtils.removeKey result "_token_usage") none db).success = true
        · simp [hk, hs]
        · simp [hk, hs]

/-- C2 witness: a successfully persisted item is deleted with the
interpret-persist-delete trace. -/
theorem C2_exactly_one_terminal_and_delete_after_persist_witness :
    PcrUtils.processPdfTrace
        (.ok [("incidentTimes", .obj [("cad", .str "12345"),
          ("unit_dispatched", .str "M1"),
          ("times", .obj [("notifiedByDispatch", .obj
            [("date", .str "12/08/2025"), ("time", .str "14:30:00")])])])])
        (.ok ()) (fun _ => .ok ()) =
      [.interpretOk, .persistOk, .fileDeleted] :=
  (C2_exactly_one_terminal_and_delete_after_persist
      (.ok [("incidentTimes", .obj [("cad", .str "12345"),
        ("unit_dispatched", .str "M1"),
        ("times", .obj [("notifiedByDispatch", .obj
          [("date", .str "12/08/2025"), ("time", .str "14:30:00")])])])])
      (.ok ()) (fun _ => .ok ())).2.1 (by decide)
